import Mathlib

/-!
Verification of the `sound-meters` popup visualizer (`src/popup.js`).

The source is a single IIFE holding mutable module state
(`stream`, `audioContext`, `animationId`, `isCapturing`, canvas CSS
dimensions, status/error DOM text, the toggle button), an async
`startCapture`, a synchronous `stopCapture`, a `draw` loop driven by
`requestAnimationFrame`, and pure coordinate mappings (`logX`, `mapY`,
and the waveform loop).

We embed it as an event-driven state machine:

* `St` holds exactly the mutable module state plus the user-visible
  DOM slots; `alive` records whether the popup page is still loaded
  (after `unload` no handler or promise continuation runs).
* `Ev` are the entry points: a click on the toggle button, a window
  resize, the unload handler, a `requestAnimationFrame` callback
  firing, and the resolution (success or failure) of the async part of
  `startCapture` that runs after its `await` points.
* Each step returns the successor state together with a trace of
  `Effect`s (calls into the browser collaborators), so that ordering
  and no-op claims can be stated about what the code actually invokes.

The pure pixel mappings (`logX`, `mapY`, waveform sampling) are
embedded over `ℝ`, the standard idealisation of JS doubles.
-/

namespace SoundMeters

/-! ## Source constants (popup.js lines 108-111, 122-123) -/

/-- `analyser.fftSize = 2048` (line 108). -/
def fftSize : Nat := 2048

/-- `freqData.length = analyser.frequencyBinCount` = `fftSize / 2` (line 118). -/
def frequencyBinCount : Nat := fftSize / 2

/-- `const BINS_PER_BUCKET = 8` (line 122). -/
def binsPerBucket : Nat := 8

/-- `const BUCKETS = freqData.length / BINS_PER_BUCKET` (line 123). -/
def buckets : Nat := frequencyBinCount / binsPerBucket

/-- `analyser.minDecibels = -90` (line 109). -/
def minDecibels : ℝ := -90

/-- `analyser.maxDecibels = -10` (line 110). -/
def maxDecibels : ℝ := -10

/-- `const dbRange = analyser.maxDecibels - analyser.minDecibels` (line 128). -/
def dbRange : ℝ := maxDecibels - minDecibels

/-- Fallback error text in `reject(err ?? new Error(...))` has a message, and
the catch handler shows the collaborator message, falling back to this
fixed text (line 213). -/
def fallbackMsg : String := "Capture failed"

/-! ## Pure coordinate mappings (popup.js lines 125-132, 184-196) -/

/-- `Math.log10` over the reals. -/
noncomputable def log10 (x : ℝ) : ℝ := Real.logb 10 x

/-- Line 125-126: `logWidth = Math.log10(freqData.length)`;
`logX = (bin) => (Math.log10(bin + 1) / logWidth) * specWidth`.
`W` is the live `specWidth`, `N` the frequency-bin count. -/
noncomputable def logX (W : ℝ) (N : Nat) (bin : Nat) : ℝ :=
  log10 ((bin : ℝ) + 1) / log10 (N : ℝ) * W

/-- Lines 129-132: clamp `(db - minDecibels) / dbRange` into `[0,1]` with
`Math.min(1, Math.max(0, ·))`, then `specHeight - n * specHeight`.
`H` is the live `specHeight`. -/
noncomputable def mapY (H : ℝ) (db : ℝ) : ℝ :=
  H - min 1 (max 0 ((db - minDecibels) / dbRange)) * H

/-- Lines 144, 153: the x coordinate of bucket `b`: bucket 0 starts the path
at `px = 0`; bucket `b ≥ 1` uses `logX(b * BINS_PER_BUCKET)`. -/
noncomputable def bucketX (W : ℝ) (b : Nat) : ℝ :=
  if b = 0 then 0 else logX W frequencyBinCount (b * binsPerBucket)

/-- The spectrum x coordinates a single `draw` call computes, one per bucket,
from the `specWidth` current at that call. -/
noncomputable def frameSpectrumXs (W : ℝ) : List ℝ :=
  (List.range buckets).map (bucketX W)

/-- Line 184: `sliceWidth = waveWidth / timeData.length`; the loop advances
`x += sliceWidth` from `x = 0`, so sample `i` lands at `i * (W / n)`. -/
noncomputable def waveX (W : ℝ) (n : Nat) (i : Nat) : ℝ :=
  (i : ℝ) * (W / (n : ℝ))

/-- Line 185, 189: `mid = waveHeight / 2`; `y = mid - timeData[i] * mid`. -/
noncomputable def waveY (H : ℝ) (a : ℝ) : ℝ :=
  H / 2 - a * (H / 2)

/-- The waveform plotting loop (lines 186-196): carries the running `x`,
emits one `(x, y)` point per sample, then advances `x` by `sliceWidth`. -/
noncomputable def wavePointsGo (sliceW H : ℝ) : ℝ → List ℝ → List (ℝ × ℝ)
  | _, [] => []
  | x, a :: rest => (x, waveY H a) :: wavePointsGo sliceW H (x + sliceW) rest

/-- All points the waveform renderer plots in one frame, for time-domain
data `data` on a surface of logical width `W` and height `H`. -/
noncomputable def wavePoints (W H : ℝ) (data : List ℝ) : List (ℝ × ℝ) :=
  wavePointsGo (W / (data.length : ℝ)) H 0 data

/-! ## The lifecycle state machine -/

/-- Calls the popup makes into its browser collaborators, in order. -/
inductive Effect where
  /-- `chrome.tabCapture.capture(...)` (line 82). -/
  | captureRequest
  /-- `new AudioContext()` plus source/analyser graph construction
  (lines 103-115). -/
  | createSession
  /-- one execution of `draw()`: `capturing` is the value of `isCapturing`
  at the moment the body runs, `xs` the spectrum x coordinates it computes
  from the `specWidth` current at that moment. -/
  | drawRun (capturing : Bool) (xs : List ℝ)
  /-- `animationId = requestAnimationFrame(draw)` (line 202). -/
  | scheduleFrame (id : Nat)
  /-- `cancelAnimationFrame(animationId)` (line 222). -/
  | cancelFrame
  /-- `stream.getTracks().forEach(track => track.stop())` (line 227). -/
  | stopTracks
  /-- `audioContext.close()` (line 232); its promise rejection is discarded
  by `.catch(() => {})`. -/
  | closeGraph
  /-- `clearCanvases()` (line 75-78). -/
  | clearSurfaces
  /-- `initCanvases()` (lines 43-51): recompute DPI scale and CSS
  dimensions of both canvases. -/
  | surfacesSetup

/-- The module-level mutable state of `popup.js` plus user-visible DOM. -/
@[ext] structure St where
  /-- the popup page is still loaded (no `unload` yet) -/
  alive : Bool
  /-- the async body of `startCapture` is past its guard and not yet
  resolved (the `Starting` phase) -/
  pending : Bool
  /-- `isCapturing` (line 57) -/
  isCapturing : Bool
  /-- `stream` (line 54) is non-null -/
  stream : Bool
  /-- `audioContext` (line 55) is non-null -/
  audioContext : Bool
  /-- `animationId` (line 56): the currently scheduled rAF callback -/
  animationId : Option Nat
  /-- `statusEl.textContent` -/
  status : String
  /-- `errBox.hidden` -/
  errHidden : Bool
  /-- `errBox.textContent` -/
  errText : String
  /-- `toggleBtn.disabled` -/
  toggleDisabled : Bool
  /-- `toggleBtn.textContent` -/
  toggleText : String
  /-- `specWidth` (line 21) -/
  specWidth : ℝ
  /-- `specHeight` (line 21) -/
  specHeight : ℝ
  /-- `waveWidth` (line 22) -/
  waveWidth : ℝ
  /-- `waveHeight` (line 22) -/
  waveHeight : ℝ

/-- The entry points through which control enters the module after load. -/
inductive Ev where
  /-- a click on the toggle button; `closeOk` is the outcome the
  environment gives `audioContext.close()` should `stopCapture` run -/
  | click (closeOk : Bool)
  /-- a window resize to new CSS dimensions -/
  | resize (sw sh ww wh : ℝ)
  /-- the `unload` handler; the page dies afterwards -/
  | unload (closeOk : Bool)
  /-- the scheduled `requestAnimationFrame` callback fires; `newId` is the
  handle of the next scheduled frame -/
  | frame (newId : Nat)
  /-- the awaited part of `startCapture` resolves successfully -/
  | resolveOk (newId : Nat)
  /-- the awaited part of `startCapture` throws: `gotStream`/`gotCtx` say
  how far construction got before the throw, `msg` is `e?.message` -/
  | resolveErr (gotStream gotCtx : Bool) (msg : Option String) (closeOk : Bool)

/-- `stopCapture` (lines 220-241).  Each teardown branch is guarded on the
resource being present; the outcome `closeOk` of `audioContext.close()` is
discarded by `.catch(() => {})`, so it influences nothing. -/
def stopCapture (closeOk : Bool) (s : St) : St × List Effect :=
  let p1 : St × List Effect :=
    match s.animationId with
    | some _ => ({ s with animationId := none }, [Effect.cancelFrame])
    | none => (s, [])
  let p2 : St × List Effect :=
    if p1.1.stream then ({ p1.1 with stream := false }, p1.2 ++ [Effect.stopTracks])
    else p1
  let p3 : St × List Effect :=
    if p2.1.audioContext then
      ({ p2.1 with audioContext := false }, p2.2 ++ [Effect.closeGraph])
    else p2
  ({ p3.1 with isCapturing := false, status := "Stopped",
               toggleText := "Start", toggleDisabled := false },
   p3.2 ++ [Effect.clearSurfaces])

/-- The synchronous prefix of `startCapture` (lines 94-99): the
`if (isCapturing) return` guard, then `clearError()`,
`setStatus` with the Starting text, `toggleBtn.disabled = true`, and the capture
request whose `await` suspends the rest of the function. -/
def startCaptureSync (s : St) : St × List Effect :=
  if s.isCapturing then (s, [])
  else
    ({ s with errHidden := true, errText := "",
              status := "Starting...", toggleDisabled := true,
              pending := true },
     [Effect.captureRequest])

/-- The observable effects of one execution of `draw()` (lines 135-203):
it reads the live `isCapturing` and `specWidth` of the state it runs in
and reschedules itself. -/
noncomputable def drawEffects (s : St) (newId : Nat) : List Effect :=
  [Effect.drawRun s.isCapturing (frameSpectrumXs s.specWidth),
   Effect.scheduleFrame newId]

/-- One step of the machine for a page that is still alive. -/
noncomputable def stepAlive (e : Ev) (s : St) : St × List Effect :=
  match e with
  | Ev.click closeOk =>
      -- a disabled button fires no click event
      if s.toggleDisabled then (s, [])
      -- lines 244-250: `isCapturing ? stopCapture() : startCapture()`
      else if s.isCapturing then stopCapture closeOk s
      else startCaptureSync s
  | Ev.resize sw sh ww wh =>
      -- lines 258-263: `initCanvases(); if (!isCapturing) clearCanvases();`
      let s1 : St :=
        { s with specWidth := sw, specHeight := sh,
                 waveWidth := ww, waveHeight := wh }
      if s1.isCapturing then (s1, [Effect.surfacesSetup])
      else (s1, [Effect.surfacesSetup, Effect.clearSurfaces])
  | Ev.unload closeOk =>
      -- lines 253-255: `stopCapture()`, then the page is gone
      let r := stopCapture closeOk s
      ({ r.1 with alive := false }, r.2)
  | Ev.frame newId =>
      -- the rAF callback only fires while a frame is scheduled (a
      -- cancelled handle never fires); `draw` reschedules itself
      match s.animationId with
      | none => (s, [])
      | some _ => ({ s with animationId := some newId }, drawEffects s newId)
  | Ev.resolveOk newId =>
      if s.pending then
        -- lines 102-119: stream acquired, AudioContext and graph built
        let s1 : St := { s with stream := true, audioContext := true }
        -- line 205: `draw()` runs once synchronously and schedules the
        -- next frame; `isCapturing` is still false at this point
        let s2 : St := { s1 with animationId := some newId }
        -- lines 206-209
        ({ s2 with isCapturing := true, pending := false,
                   status := "Capturing...", toggleText := "Stop",
                   toggleDisabled := false },
         Effect.createSession :: drawEffects s1 newId)
      else (s, [])
  | Ev.resolveErr gotStream gotCtx msg closeOk =>
      if s.pending then
        -- partial assignments made before the throw
        let s1 : St := { s with stream := gotStream, audioContext := gotCtx }
        -- lines 211-214: `showError` with the message or fallback text,
        -- `toggleBtn.disabled = false`
        let s2 : St :=
          { s1 with errHidden := false, errText := msg.getD fallbackMsg,
                    status := "Error", toggleDisabled := false }
        -- line 215: `stopCapture()`
        let r := stopCapture closeOk s2
        ({ r.1 with pending := false }, r.2)
      else (s, [])

/-- One step: after `unload` nothing runs any more. -/
noncomputable def step (e : Ev) (s : St) : St × List Effect :=
  if s.alive then stepAlive e s else (s, [])

/-- The state right after the module body runs (lines 265-267):
`initCanvases()` stores the CSS dimensions and the status reads Idle. -/
def init (sw sh ww wh : ℝ) : St :=
  { alive := true, pending := false, isCapturing := false,
    stream := false, audioContext := false, animationId := none,
    status := "Idle", errHidden := true, errText := "",
    toggleDisabled := false, toggleText := "Start",
    specWidth := sw, specHeight := sh, waveWidth := ww, waveHeight := wh }

/-- States the popup can actually be in. -/
inductive Reachable : St → Prop where
  | boot (sw sh ww wh : ℝ) : Reachable (init sw sh ww wh)
  | next (s : St) (e : Ev) : Reachable s → Reachable (step e s).1

/-- The inductive invariant tying the implicit lifecycle phases to the
nullable handles: while the page is alive, the `Starting` phase keeps the
toggle disabled and `isCapturing` false; no frame is scheduled outside
capture; and while capturing a frame is scheduled and no start is pending. -/
def Inv (s : St) : Prop :=
  (s.alive = true → s.pending = true →
     s.toggleDisabled = true ∧ s.isCapturing = false)
  ∧ (s.isCapturing = false → s.animationId = none)
  ∧ (s.isCapturing = true → s.animationId ≠ none ∧ s.pending = false)

/-! ## Helper lemmas about the machine -/

/-- The state `stopCapture` leaves behind, whatever it started from. -/
theorem stopCapture_fst (ok : Bool) (s : St) :
    (stopCapture ok s).1 =
      { s with animationId := none, stream := false, audioContext := false,
               isCapturing := false, status := "Stopped",
               toggleText := "Start", toggleDisabled := false } := by
  unfold stopCapture
  rcases hA : s.animationId with _ | k <;> rcases hS : s.stream <;>
    rcases hC : s.audioContext <;> simp [hA, hS, hC]

/-- The trace `stopCapture` emits: one entry per present resource, in
source order, then the unconditional canvas clear. -/
theorem stopCapture_snd (ok : Bool) (s : St) :
    (stopCapture ok s).2 =
      (match s.animationId with
       | some _ => [Effect.cancelFrame]
       | none => ([] : List Effect)) ++
      (if s.stream then [Effect.stopTracks] else []) ++
      (if s.audioContext then [Effect.closeGraph] else []) ++
      [Effect.clearSurfaces] := by
  unfold stopCapture
  rcases hA : s.animationId with _ | k <;> rcases hS : s.stream <;>
    rcases hC : s.audioContext <;> simp [hA, hS, hC]

/-- After `unload`, every entry point is dead. -/
theorem step_dead (e : Ev) (s : St) (h : s.alive = false) :
    step e s = (s, []) := by
  simp [step, h]

/-- The initial state satisfies the invariant. -/
theorem inv_init (sw sh ww wh : ℝ) : Inv (init sw sh ww wh) := by
  simp [Inv, init]

/-- Every step preserves the invariant. -/
theorem inv_step (e : Ev) (s : St) (h : Inv s) : Inv (step e s).1 := by
  obtain ⟨h1, h2, h3⟩ := h
  rcases hAl : s.alive with _ | _
  · rw [step_dead e s hAl]
    exact ⟨h1, h2, h3⟩
  · cases e with
    | click ok =>
        rcases hD : s.toggleDisabled with _ | _
        · rcases hC : s.isCapturing with _ | _
          · have hAnim := h2 hC
            simp [step, stepAlive, hAl, hD, hC, startCaptureSync, Inv, hAnim]
          · have hP := (h3 hC).2
            simp [step, stepAlive, hAl, hD, hC, stopCapture_fst, Inv, hP]
        · simp [step, stepAlive, hAl, hD]
          exact ⟨h1, h2, h3⟩
    | resize sw sh ww wh =>
        have hstate : (step (Ev.resize sw sh ww wh) s).1 =
            { s with specWidth := sw, specHeight := sh,
                     waveWidth := ww, waveHeight := wh } := by
          rcases hC : s.isCapturing with _ | _ <;> simp [step, stepAlive, hAl, hC]
        rw [hstate]
        exact ⟨h1, h2, h3⟩
    | unload ok =>
        simp [step, stepAlive, hAl, stopCapture_fst, Inv]
    | frame newId =>
        rcases hA2 : s.animationId with _ | k
        · simp [step, stepAlive, hAl, hA2]
          exact ⟨h1, h2, h3⟩
        · have hC : s.isCapturing = true := by
            rcases hCC : s.isCapturing with _ | _
            · exact absurd (h2 hCC) (by simp [hA2])
            · rfl
          have hP := (h3 hC).2
          simp [step, stepAlive, hAl, hA2, Inv, hC, hP]
    | resolveOk newId =>
        rcases hP : s.pending with _ | _
        · simp [step, stepAlive, hAl, hP]
          exact ⟨h1, h2, h3⟩
        · simp [step, stepAlive, hAl, hP, Inv]
    | resolveErr gs gc msg ok =>
        rcases hP : s.pending with _ | _
        · simp [step, stepAlive, hAl, hP]
          exact ⟨h1, h2, h3⟩
        · simp [step, stepAlive, hAl, hP, stopCapture_fst, Inv]

/-- Every reachable state satisfies the invariant. -/
theorem reachable_inv (s : St) (h : Reachable s) : Inv s := by
  induction h with
  | boot sw sh ww wh => exact inv_init sw sh ww wh
  | next s e _ ih => exact inv_step e s ih

/-! ## Concrete reachable states used as witnesses -/

/-- Fresh popup: both canvases 300×150 CSS pixels. -/
noncomputable def sIdle : St := init 300 150 300 150

/-- The user clicked Start: the `Starting` phase. -/
noncomputable def sStarting : St := (step (Ev.click true) sIdle).1

/-- Acquisition succeeded: capturing, frame 0 scheduled. -/
noncomputable def sCap : St := (step (Ev.resolveOk 0) sStarting).1

/-- Acquisition failed with no message on the error. -/
noncomputable def sFail : St := (step (Ev.resolveErr false false none true) sStarting).1

theorem reachable_sIdle : Reachable sIdle := Reachable.boot 300 150 300 150

theorem reachable_sStarting : Reachable sStarting :=
  Reachable.next sIdle (Ev.click true) reachable_sIdle

theorem reachable_sCap : Reachable sCap :=
  Reachable.next sStarting (Ev.resolveOk 0) reachable_sStarting

theorem reachable_sFail : Reachable sFail :=
  Reachable.next sStarting (Ev.resolveErr false false none true) reachable_sStarting

/-! ## Facts about the pure mappings -/

/-- The spectrum x mapping sends bin 0 to exactly 0. -/
theorem logX_zero (W : ℝ) (N : Nat) : logX W N 0 = 0 := by
  simp [logX, log10, Real.logb_one]

/-- Index lemma for the waveform plotting loop: the point for sample `i`
sits `i` slice widths to the right of wherever the loop started. -/
theorem wavePointsGo_get? (sW H : ℝ) (l : List ℝ) :
    ∀ (x0 : ℝ) (i : Nat),
      (wavePointsGo sW H x0 l).get? i =
        (l.get? i).map (fun a => (x0 + (i : ℝ) * sW, waveY H a)) := by
  induction l with
  | nil => intro x0 i; simp [wavePointsGo]
  | cons a rest ih =>
      intro x0 i
      cases i with
      | zero => simp [wavePointsGo]
      | succ n =>
          rw [show wavePointsGo sW H x0 (a :: rest) =
                (x0, waveY H a) :: wavePointsGo sW H (x0 + sW) rest from rfl]
          rw [List.get?_cons_succ, ih (x0 + sW) n, List.get?_cons_succ]
          cases hr : rest.get? n with
          | none => rfl
          | some v =>
              refine congrArg some (Prod.ext ?_ rfl)
              push_cast
              ring

/-! ## Claim C6: the log-frequency x mapping -/

/-- C6: for every logical width `W > 0` and bin count `N > 0`, the
log-frequency mapping `x(bin) = log10(bin+1)/log10(N) × W` is monotonically
non-decreasing in the bin index, sends bin 0 to a value `≥ 0` and bin
`N - 1` to a value `≤ W`; for `W = 300` and `N = 1024` it sends bin 0 to
exactly 0 and bin 1023 to exactly 300. -/
theorem c6_logX_monotone_bounded (W : ℝ) (N : Nat) (hW : 0 < W) (hN : 0 < N) :
    (∀ b1 b2 : Nat, b1 ≤ b2 → logX W N b1 ≤ logX W N b2)
    ∧ 0 ≤ logX W N 0
    ∧ logX W N (N - 1) ≤ W
    ∧ logX 300 1024 0 = 0
    ∧ logX 300 1024 1023 = 300 := by
  have hb : (1 : ℝ) < 10 := by norm_num
  refine ⟨?_, ?_, ?_, ?_, ?_⟩
  · intro b1 b2 hb12
    unfold logX log10
    apply mul_le_mul_of_nonneg_right _ hW.le
    have hnum : Real.logb 10 ((b1 : ℝ) + 1) ≤ Real.logb 10 ((b2 : ℝ) + 1) :=
      Real.logb_le_logb_of_le hb (by positivity)
        (by exact_mod_cast add_le_add_right (Nat.cast_le.mpr hb12) 1)
    have hden : 0 ≤ Real.logb 10 (N : ℝ) :=
      Real.logb_nonneg hb (by exact_mod_cast hN)
    rcases eq_or_lt_of_le hden with h0 | h0
    · rw [← h0, div_zero, div_zero]
    · exact (div_le_div_iff_of_pos_right h0).mpr hnum
  · rw [logX_zero]
  · have hcast : ((N - 1 : Nat) : ℝ) + 1 = (N : ℝ) := by
      have h1 : (1 : Nat) ≤ N := hN
      push_cast [Nat.cast_sub h1]
      ring
    unfold logX log10
    rw [hcast]
    rcases eq_or_ne (Real.logb 10 (N : ℝ)) 0 with h0 | h0
    · rw [h0, div_zero, zero_mul]
      exact hW.le
    · rw [div_self h0, one_mul]
  · exact logX_zero 300 1024
  · unfold logX log10
    have hcast : ((1023 : Nat) : ℝ) + 1 = (1024 : ℝ) := by norm_num
    have h0 : Real.logb 10 ((1024 : Nat) : ℝ) ≠ 0 := by
      have : (0 : ℝ) < Real.logb 10 ((1024 : Nat) : ℝ) :=
        Real.logb_pos hb (by norm_num)
      exact this.ne'
    rw [hcast]
    push_cast
    push_cast at h0
    rw [div_self h0, one_mul]

/-- Witness for C6 at the spec scenario `W = 300`, `N = 1024`. -/
theorem c6_witness :
    0 ≤ logX 300 1024 0 ∧ logX 300 1024 0 = 0 ∧ logX 300 1024 1023 = 300 :=
  have h := c6_logX_monotone_bounded 300 1024 (by norm_num) (by norm_num)
  ⟨h.2.1, h.2.2.2.1, h.2.2.2.2⟩

/-! ## Claim C7: the spectrum y mapping -/

/-- C7: the spectrum y mapping clamps the normalised decibel value into
`[0, 1]` over the configured `[minDecibels, maxDecibels] = [-90, -10]`
range and inverts: it is monotonically non-increasing in the decibel value,
always lands in `[0, logicalHeight]`, and at `d = -50` the normalised value
is exactly `1/2`, so `y = logicalHeight / 2`. -/
theorem c7_mapY_clamped_monotone (H d d1 d2 : ℝ) (hH : 0 ≤ H) :
    (d1 ≤ d2 → mapY H d2 ≤ mapY H d1)
    ∧ 0 ≤ mapY H d
    ∧ mapY H d ≤ H
    ∧ min 1 (max 0 ((-50 - minDecibels) / dbRange)) = 1 / 2
    ∧ mapY H (-50) = H / 2 := by
  have hrange : dbRange = 80 := by
    norm_num [dbRange, maxDecibels, minDecibels]
  have hbound : ∀ x : ℝ, 0 ≤ min 1 (max 0 x) ∧ min 1 (max 0 x) ≤ 1 := by
    intro x
    exact ⟨le_min (by norm_num) (le_max_left 0 x), min_le_left 1 (max 0 x)⟩
  have hnorm : min 1 (max 0 ((-50 - minDecibels) / dbRange)) = 1 / 2 := by
    norm_num [minDecibels, hrange]
  refine ⟨?_, ?_, ?_, hnorm, ?_⟩
  · intro hd
    unfold mapY
    have hmono : min 1 (max 0 ((d1 - minDecibels) / dbRange)) ≤
        min 1 (max 0 ((d2 - minDecibels) / dbRange)) := by
      apply min_le_min le_rfl
      apply max_le_max le_rfl
      rw [hrange]
      exact (div_le_div_iff_of_pos_right (by norm_num)).mpr (sub_le_sub_right hd _)
    nlinarith [hmono, hH]
  · unfold mapY
    have h := hbound ((d - minDecibels) / dbRange)
    nlinarith [h.1, h.2, hH]
  · unfold mapY
    have h := hbound ((d - minDecibels) / dbRange)
    nlinarith [h.1, h.2, hH]
  · unfold mapY
    rw [hnorm]
    ring

/-- Witness for C7 at `H = 100` and the spec scenario `d = -50`. -/
theorem c7_witness :
    mapY 100 (-40) ≤ mapY 100 (-60)
    ∧ 0 ≤ mapY 100 (-50) ∧ mapY 100 (-50) ≤ 100
    ∧ mapY 100 (-50) = 100 / 2 :=
  have h := c7_mapY_clamped_monotone 100 (-50) (-60) (-40) (by norm_num)
  ⟨h.1 (by norm_num), h.2.1, h.2.2.1, h.2.2.2.2⟩

/-! ## Claim C8: the waveform mapping -/

/-- C8: the waveform renderer plots sample `i` of value `a` at
`x = i × (logicalWidth / sampleCount)` and `y = H/2 − a × H/2`; the y
mapping is affine and, on the amplitude domain `[-1, 1]`, invertible, and
`a = 0` lands exactly on the midline `H/2`. -/
theorem c8_wave_affine (W H : ℝ) (data : List ℝ) (i : Nat) (a : ℝ)
    (hH : 0 < H) (hget : data.get? i = some a) :
    (wavePoints W H data).get? i = some (waveX W data.length i, waveY H a)
    ∧ waveY H a = -(H / 2) * a + H / 2
    ∧ waveY H 0 = H / 2
    ∧ (∀ a1 a2 : ℝ, -1 ≤ a1 → a1 ≤ 1 → -1 ≤ a2 → a2 ≤ 1 →
        waveY H a1 = waveY H a2 → a1 = a2) := by
  refine ⟨?_, by unfold waveY; ring, by unfold waveY; ring, ?_⟩
  · unfold wavePoints waveX
    rw [wavePointsGo_get?, hget]
    simp
  · intro a1 a2 _ _ _ _ heq
    unfold waveY at heq
    have hne : H / 2 ≠ 0 := by positivity
    have : a1 * (H / 2) = a2 * (H / 2) := by linarith
    exact mul_right_cancel₀ hne this

/-- Witness for C8: a two-sample buffer on a 300×150 surface. -/
theorem c8_witness :
    (wavePoints 300 150 [0, 1 / 2]).get? 1 =
      some (waveX 300 (List.length [(0 : ℝ), 1 / 2]) 1, waveY 150 (1 / 2))
    ∧ waveY 150 0 = 150 / 2 :=
  have h := c8_wave_affine 300 150 [0, 1 / 2] 1 (1 / 2) (by norm_num) rfl
  ⟨h.1, h.2.2.1⟩

/-- `stopCapture` never issues a capture request. -/
theorem captureRequest_not_in_stop (ok : Bool) (s : St) :
    Effect.captureRequest ∉ (stopCapture ok s).2 := by
  rw [stopCapture_snd]
  rcases s.animationId with _ | k <;> rcases hS : s.stream <;>
    rcases hC : s.audioContext <;> simp [hS, hC]

/-! ## Claim C1: starting is guarded against re-entry -/

/-- C1: while the lifecycle state is already `Capturing`, invoking
`startCapture` is a complete no-op (the `if (isCapturing) return` guard);
while it is `Starting`, the toggle button — the sole caller of
`startCapture` — is disabled, so a click does nothing; and from either
phase no step of the system can issue a second capture request. -/
theorem c1_start_reentry_noop (s : St) (h : Reachable s) :
    (s.isCapturing = true → startCaptureSync s = (s, []))
    ∧ (s.pending = true → ∀ ok, step (Ev.click ok) s = (s, []))
    ∧ ((s.pending = true ∨ s.isCapturing = true) →
        ∀ e, Effect.captureRequest ∉ (step e s).2) := by
  obtain ⟨h1, h2, h3⟩ := reachable_inv s h
  refine ⟨?_, ?_, ?_⟩
  · intro hC
    simp [startCaptureSync, hC]
  · intro hP ok
    rcases hAl : s.alive with _ | _
    · exact step_dead _ s hAl
    · have hD := (h1 hAl hP).1
      simp [step, stepAlive, hAl, hD]
  · intro hPC e
    rcases hAl : s.alive with _ | _
    · rw [step_dead e s hAl]
      simp
    · cases e with
      | click ok =>
          rcases hD : s.toggleDisabled with _ | _
          · rcases hC : s.isCapturing with _ | _
            · rcases hPC with hP | hC2
              · exact absurd (h1 hAl hP).1 (by simp [hD])
              · exact absurd hC2 (by simp [hC])
            · simpa [step, stepAlive, hAl, hD, hC] using
                captureRequest_not_in_stop ok s
          · simp [step, stepAlive, hAl, hD]
      | resize sw sh ww wh =>
          rcases hC : s.isCapturing with _ | _ <;>
            simp [step, stepAlive, hAl, hC]
      | unload ok =>
          simpa [step, stepAlive, hAl] using captureRequest_not_in_stop ok s
      | frame newId =>
          rcases hA : s.animationId with _ | k <;>
            simp [step, stepAlive, hAl, hA, drawEffects]
      | resolveOk newId =>
          rcases hP : s.pending with _ | _ <;>
            simp [step, stepAlive, hAl, hP, drawEffects]
      | resolveErr gs gc msg ok =>
          rcases hP : s.pending with _ | _
          · simp [step, stepAlive, hAl, hP]
          · simp only [step, stepAlive, hAl, hP, if_true, if_pos]
            simpa using captureRequest_not_in_stop ok _

/-- Witness for C1: in the concrete capturing state the guard fires, and
in the concrete starting state a click does nothing; a frame step while
capturing issues no capture request. -/
theorem c1_witness :
    startCaptureSync sCap = (sCap, [])
    ∧ step (Ev.click true) sStarting = (sStarting, [])
    ∧ Effect.captureRequest ∉ (step (Ev.frame 5) sCap).2 :=
  ⟨(c1_start_reentry_noop sCap reachable_sCap).1 rfl,
   (c1_start_reentry_noop sStarting reachable_sStarting).2.1 rfl true,
   (c1_start_reentry_noop sCap reachable_sCap).2.2 (Or.inr rfl) (Ev.frame 5)⟩

/-! ## Claim C2: when the draw routine runs -/

/-- C2 counterexample: in the reachable `Starting` state, the successful
resolution of `startCapture` executes the draw routine once while
`isCapturing` is still `false` — the first draw happens strictly before
the transition to `Capturing` (line 205 `draw()` precedes line 206
`isCapturing = true`), so not every execution of the per-frame draw
routine happens after that transition. -/
theorem c2_counterexample :
    Reachable sStarting
    ∧ sStarting.isCapturing = false
    ∧ Effect.drawRun false (frameSpectrumXs 300) ∈
        (step (Ev.resolveOk 0) sStarting).2
    ∧ (step (Ev.resolveOk 0) sStarting).1.isCapturing = true :=
  ⟨reachable_sStarting, rfl,
   List.mem_cons_of_mem _ (List.mem_cons_self _ _), rfl⟩

/-- C2 amended: every `requestAnimationFrame`-scheduled execution of the
draw routine runs while the state is `Capturing`; once the scheduled
continuation is cancelled (`animationId = none`, as `stop` leaves it) a
frame event is a no-op, so no draw runs after stop; the only other
execution is the single synchronous `draw()` inside the success
transition, which runs with `isCapturing` still `false`, immediately
before the flag flips to `true` in the same handler. -/
theorem c2_draw_only_while_capturing (s : St) (h : Reachable s) :
    (∀ id b xs, Effect.drawRun b xs ∈ (step (Ev.frame id) s).2 →
        b = true ∧ s.isCapturing = true)
    ∧ (s.animationId = none → ∀ id, step (Ev.frame id) s = (s, []))
    ∧ (s.alive = true → s.pending = true → ∀ id b xs,
        Effect.drawRun b xs ∈ (step (Ev.resolveOk id) s).2 →
          b = false ∧ (step (Ev.resolveOk id) s).1.isCapturing = true) := by
  obtain ⟨h1, h2, h3⟩ := reachable_inv s h
  refine ⟨?_, ?_, ?_⟩
  · intro id b xs hmem
    rcases hAl : s.alive with _ | _
    · rw [step_dead _ s hAl] at hmem
      simp at hmem
    · rcases hA : s.animationId with _ | k
      · simp [step, stepAlive, hAl, hA] at hmem
      · have hC : s.isCapturing = true := by
          rcases hCC : s.isCapturing with _ | _
          · exact absurd (h2 hCC) (by simp [hA])
          · rfl
        simp [step, stepAlive, hAl, hA, drawEffects, hC] at hmem
        exact ⟨hmem.1, hC⟩
  · intro hA id
    rcases hAl : s.alive with _ | _
    · exact step_dead _ s hAl
    · simp [step, stepAlive, hAl, hA]
  · intro hAl hP id b xs hmem
    have hC : s.isCapturing = false := (h1 hAl hP).2
    constructor
    · simp [step, stepAlive, hAl, hP, drawEffects, hC] at hmem
      exact hmem.1
    · simp [step, stepAlive, hAl, hP]

/-- Witness for C2 (amended): the frame fired from the concrete capturing
state draws with the flag `true`. -/
theorem c2_witness :
    sCap.isCapturing = true
    ∧ Effect.drawRun true (frameSpectrumXs 300) ∈ (step (Ev.frame 5) sCap).2 :=
  have hm : Effect.drawRun true (frameSpectrumXs 300) ∈
      (step (Ev.frame 5) sCap).2 := List.mem_cons_self _ _
  ⟨((c2_draw_only_while_capturing sCap reachable_sCap).1 5 true
      (frameSpectrumXs 300) hm).2, hm⟩

/-! ## Claim C3: failures of start are contained -/

/-- C3: when the asynchronous part of `startCapture` fails — however far
construction got — the `catch` converts the failure into a user-visible
message (no exception escapes: the step is a total function): the error
box becomes visible showing exactly the collaborator-provided message, or
the fixed fallback string when none is available; all partial state
(stream, audio graph, scheduled frame, flags) is torn down; and the start
control is re-enabled. -/
theorem c3_start_failure_contained (s : St) (gs gc : Bool) (msg : Option String)
    (ok : Bool) (hal : s.alive = true) (hp : s.pending = true) :
    (step (Ev.resolveErr gs gc msg ok) s).1.errHidden = false
    ∧ (step (Ev.resolveErr gs gc msg ok) s).1.errText = msg.getD fallbackMsg
    ∧ (step (Ev.resolveErr gs gc msg ok) s).1.stream = false
    ∧ (step (Ev.resolveErr gs gc msg ok) s).1.audioContext = false
    ∧ (step (Ev.resolveErr gs gc msg ok) s).1.animationId = none
    ∧ (step (Ev.resolveErr gs gc msg ok) s).1.isCapturing = false
    ∧ (step (Ev.resolveErr gs gc msg ok) s).1.pending = false
    ∧ (step (Ev.resolveErr gs gc msg ok) s).1.toggleDisabled = false := by
  simp [step, stepAlive, hal, hp, stopCapture_fst]

/-- Witness for C3: a concrete rejection with a message, and one without
(the fallback string), from the concrete starting state. -/
theorem c3_witness :
    (step (Ev.resolveErr false false (some "Permission denied") true)
        sStarting).1.errText = "Permission denied"
    ∧ (step (Ev.resolveErr true true none true) sStarting).1.errText =
        fallbackMsg
    ∧ (step (Ev.resolveErr true true none true) sStarting).1.stream = false
    ∧ (step (Ev.resolveErr true true none true) sStarting).1.toggleDisabled =
        false :=
  ⟨(c3_start_failure_contained sStarting false false (some "Permission denied")
      true rfl rfl).2.1,
   (c3_start_failure_contained sStarting true true none true rfl rfl).2.1,
   (c3_start_failure_contained sStarting true true none true rfl rfl).2.2.1,
   (c3_start_failure_contained sStarting true true none true rfl rfl).2.2.2.2.2.2.2⟩

/-! ## Claim C4: stop is idempotent -/

/-- C4: `stopCapture` raises no fault (it is a total function), treats each
already-absent resource as a no-op, running it twice in a row leaves the
state of the first run untouched and only re-clears the surfaces, and
running it on a never-started popup yields exactly the initial Idle state
except for the status text reading `Stopped`. -/
theorem c4_stop_idempotent (ok ok2 : Bool) (s : St) (sw sh ww wh : ℝ) :
    stopCapture ok2 (stopCapture ok s).1 =
      ((stopCapture ok s).1, [Effect.clearSurfaces])
    ∧ (stopCapture ok (init sw sh ww wh)).1 =
        { init sw sh ww wh with status := "Stopped" }
    ∧ (stopCapture ok (init sw sh ww wh)).2 = [Effect.clearSurfaces]
    ∧ (s.animationId = none → Effect.cancelFrame ∉ (stopCapture ok s).2)
    ∧ (s.stream = false → Effect.stopTracks ∉ (stopCapture ok s).2)
    ∧ (s.audioContext = false → Effect.closeGraph ∉ (stopCapture ok s).2) := by
  refine ⟨?_, ?_, ?_, ?_, ?_, ?_⟩
  · rw [stopCapture_fst ok s]
    simp [stopCapture]
  · rw [stopCapture_fst]
    simp [init]
  · rw [stopCapture_snd]
    simp [init]
  · intro hA
    rw [stopCapture_snd]
    rcases hS : s.stream <;> rcases hC : s.audioContext <;> simp [hA, hS, hC]
  · intro hS
    rw [stopCapture_snd]
    rcases hA : s.animationId with _ | k <;> rcases hC : s.audioContext <;>
      simp [hA, hS, hC]
  · intro hC
    rw [stopCapture_snd]
    rcases hA : s.animationId with _ | k <;> rcases hS : s.stream <;>
      simp [hA, hS, hC]

/-- Witness for C4: stopping the never-started concrete Idle popup touches
no absent resource. -/
theorem c4_witness :
    Effect.cancelFrame ∉ (stopCapture true sIdle).2
    ∧ Effect.stopTracks ∉ (stopCapture true sIdle).2
    ∧ Effect.closeGraph ∉ (stopCapture true sIdle).2 :=
  ⟨(c4_stop_idempotent true true sIdle 300 150 300 150).2.2.2.1 rfl,
   (c4_stop_idempotent true true sIdle 300 150 300 150).2.2.2.2.1 rfl,
   (c4_stop_idempotent true true sIdle 300 150 300 150).2.2.2.2.2 rfl⟩

/-! ## Claim C5: teardown order -/

/-- A conditional singleton is a sublist of the singleton. -/
theorem opt_sublist {α : Type} (c : Bool) (x : α) :
    List.Sublist (if c then [x] else []) [x] := by
  cases c <;> simp

/-- C5: the trace of every `stopCapture` run is, in order: cancel the
pending render-loop continuation, stop the source tracks, close the
analysis graph, clear both surfaces — each teardown step present exactly
when its resource is, the final clear always; the outcome of
`audioContext.close()` is swallowed (it changes neither state nor trace,
and the error box is never touched). -/
theorem c5_teardown_order (ok ok2 : Bool) (s : St) :
    List.Sublist (stopCapture ok s).2
      [Effect.cancelFrame, Effect.stopTracks, Effect.closeGraph,
       Effect.clearSurfaces]
    ∧ Effect.clearSurfaces ∈ (stopCapture ok s).2
    ∧ stopCapture ok s = stopCapture ok2 s
    ∧ (stopCapture ok s).1.errHidden = s.errHidden
    ∧ (stopCapture ok s).1.errText = s.errText
    ∧ (s.animationId ≠ none → Effect.cancelFrame ∈ (stopCapture ok s).2)
    ∧ (s.stream = true → Effect.stopTracks ∈ (stopCapture ok s).2)
    ∧ (s.audioContext = true → Effect.closeGraph ∈ (stopCapture ok s).2) := by
  refine ⟨?_, ?_, rfl, ?_, ?_, ?_, ?_, ?_⟩
  · rw [stopCapture_snd]
    have hA : List.Sublist
        (match s.animationId with
         | some _ => [Effect.cancelFrame]
         | none => ([] : List Effect)) [Effect.cancelFrame] := by
      rcases s.animationId with _ | k <;> simp
    have hS := opt_sublist s.stream Effect.stopTracks
    have hC := opt_sublist s.audioContext Effect.closeGraph
    have hD := List.Sublist.refl [Effect.clearSurfaces]
    have := List.Sublist.append hA (List.Sublist.append hS
      (List.Sublist.append hC hD))
    simpa [List.append_assoc] using this
  · rw [stopCapture_snd]
    simp
  · rw [stopCapture_fst]
  · rw [stopCapture_fst]
  · intro hA
    rw [stopCapture_snd]
    rcases hA2 : s.animationId with _ | k
    · exact absurd hA2 hA
    · simp
  · intro hS
    rw [stopCapture_snd]
    simp [hS]
  · intro hC
    rw [stopCapture_snd]
    simp [hC]

/-- Witness for C5: stopping the concrete capturing state emits every
teardown step. -/
theorem c5_witness :
    Effect.cancelFrame ∈ (stopCapture true sCap).2
    ∧ Effect.stopTracks ∈ (stopCapture true sCap).2
    ∧ Effect.closeGraph ∈ (stopCapture true sCap).2
    ∧ Effect.clearSurfaces ∈ (stopCapture true sCap).2 :=
  ⟨(c5_teardown_order true false sCap).2.2.2.2.2.1
      (fun h => Option.noConfusion h),
   (c5_teardown_order true false sCap).2.2.2.2.2.2.1 rfl,
   (c5_teardown_order true false sCap).2.2.2.2.2.2.2 rfl,
   (c5_teardown_order true false sCap).2.1⟩

/-! ## Claim C9: resize during capture -/

/-- C9: a resize while capturing cancels nothing: stream, audio graph,
scheduled continuation, and the capturing flag are unchanged, the surfaces
are not cleared (the handler only re-runs `initCanvases`), only the
logical dimensions are replaced; and the next frame computes its spectrum
x coordinates from the updated logical width — `draw` reads the live
`specWidth`, so the frame fired after the resize carries
`frameSpectrumXs sw` for the new width `sw`, not the width current at
`start()`. -/
theorem c9_resize_keeps_capture (s : St) (h : Reachable s) (sw sh ww wh : ℝ)
    (id : Nat) (hc : s.isCapturing = true) (hal : s.alive = true) :
    (step (Ev.resize sw sh ww wh) s).1.stream = s.stream
    ∧ (step (Ev.resize sw sh ww wh) s).1.audioContext = s.audioContext
    ∧ (step (Ev.resize sw sh ww wh) s).1.animationId = s.animationId
    ∧ (step (Ev.resize sw sh ww wh) s).1.isCapturing = true
    ∧ (step (Ev.resize sw sh ww wh) s).1.pending = s.pending
    ∧ (step (Ev.resize sw sh ww wh) s).2 = [Effect.surfacesSetup]
    ∧ (step (Ev.resize sw sh ww wh) s).1.specWidth = sw
    ∧ (step (Ev.resize sw sh ww wh) s).1.specHeight = sh
    ∧ (step (Ev.resize sw sh ww wh) s).1.waveWidth = ww
    ∧ (step (Ev.resize sw sh ww wh) s).1.waveHeight = wh
    ∧ (step (Ev.frame id) (step (Ev.resize sw sh ww wh) s).1).2 =
        [Effect.drawRun true (frameSpectrumXs sw), Effect.scheduleFrame id] := by
  obtain ⟨h1, h2, h3⟩ := reachable_inv s h
  have hrec : (step (Ev.resize sw sh ww wh) s).1 =
      { s with specWidth := sw, specHeight := sh,
               waveWidth := ww, waveHeight := wh } := by
    simp [step, stepAlive, hal, hc]
  have htr : (step (Ev.resize sw sh ww wh) s).2 = [Effect.surfacesSetup] := by
    simp [step, stepAlive, hal, hc]
  obtain ⟨k, hk⟩ : ∃ k, s.animationId = some k := by
    rcases hA : s.animationId with _ | k
    · exact absurd hA (h3 hc).1
    · exact ⟨k, rfl⟩
  refine ⟨by rw [hrec], by rw [hrec], by rw [hrec], by rw [hrec]; exact hc,
    by rw [hrec], htr, by rw [hrec], by rw [hrec], by rw [hrec], by rw [hrec],
    ?_⟩
  rw [hrec]
  simp [step, stepAlive, hal, hk, drawEffects, hc]

/-- Witness for C9: resizing the concrete capturing state from width 300
to 600 and firing the next frame draws with the new width. -/
theorem c9_witness :
    (step (Ev.resize 600 400 600 400) sCap).1.isCapturing = true
    ∧ (step (Ev.resize 600 400 600 400) sCap).2 = [Effect.surfacesSetup]
    ∧ (step (Ev.frame 7) (step (Ev.resize 600 400 600 400) sCap).1).2 =
        [Effect.drawRun true (frameSpectrumXs 600), Effect.scheduleFrame 7] :=
  have h := c9_resize_keeps_capture sCap reachable_sCap 600 400 600 400 7 rfl rfl
  ⟨h.2.2.2.1, h.2.2.2.2.2.1, h.2.2.2.2.2.2.2.2.2.2⟩

/-! ## Claim C10: after a failed start the status reads Stopped -/

/-- Recognises the only event that can invoke `startCapture`. -/
def isClickEv : Ev → Bool
  | Ev.click _ => true
  | _ => false

/-- C10: after every failed `startCapture`, the status text ends as
`Stopped`, not `Error` — the catch first calls `showError` (status
`Error`) and then `stopCapture`, which unconditionally overwrites the
status — while the error box stays visible with the failure message; it
remains visible through every non-click event and is hidden (and emptied)
only by the next start attempt, i.e. the next click. -/
theorem c10_status_overwritten_error_persists (s : St) (gs gc : Bool)
    (msg : Option String) (ok : Bool) (hal : s.alive = true)
    (hp : s.pending = true) :
    ∀ s2, s2 = (step (Ev.resolveErr gs gc msg ok) s).1 →
      s2.status = "Stopped"
      ∧ s2.errHidden = false
      ∧ s2.errText = msg.getD fallbackMsg
      ∧ (∀ e, isClickEv e = false →
          (step e s2).1.errHidden = false
          ∧ (step e s2).1.errText = msg.getD fallbackMsg)
      ∧ (∀ ok2, (step (Ev.click ok2) s2).1.errHidden = true
          ∧ (step (Ev.click ok2) s2).1.errText = "") := by
  intro s2 hs2
  have hrec : s2 =
      { s with stream := false, audioContext := false, animationId := none,
               isCapturing := false, status := "Stopped",
               toggleText := "Start", toggleDisabled := false,
               errHidden := false, errText := msg.getD fallbackMsg,
               pending := false } := by
    rw [hs2]
    simp [step, stepAlive, hal, hp, stopCapture_fst]
  subst hrec
  refine ⟨rfl, rfl, rfl, ?_, ?_⟩
  · intro e he
    cases e with
    | click ok2 => exact absurd he (by simp [isClickEv])
    | resize sw sh ww wh =>
        constructor <;> simp [step, stepAlive, hal]
    | unload ok2 =>
        constructor <;> simp [step, stepAlive, hal, stopCapture_fst]
    | frame newId =>
        constructor <;> simp [step, stepAlive, hal]
    | resolveOk newId =>
        constructor <;> simp [step, stepAlive, hal]
    | resolveErr gs2 gc2 msg2 ok2 =>
        constructor <;> simp [step, stepAlive, hal]
  · intro ok2
    constructor <;> simp [step, stepAlive, hal, startCaptureSync]

/-- Witness for C10: the concrete failed start ends with status `Stopped`,
keeps the fallback message visible across a resize, and hides it on the
next click. -/
theorem c10_witness :
    sFail.status = "Stopped"
    ∧ sFail.errHidden = false
    ∧ sFail.errText = fallbackMsg
    ∧ (step (Ev.resize 600 400 600 400) sFail).1.errHidden = false
    ∧ (step (Ev.click true) sFail).1.errHidden = true :=
  have h := c10_status_overwritten_error_persists sStarting false false none
    true rfl rfl sFail rfl
  ⟨h.1, h.2.1, h.2.2.1,
   (h.2.2.2.1 (Ev.resize 600 400 600 400) rfl).1,
   (h.2.2.2.2 true).1⟩

end SoundMeters
